import Mathlib

/-!
Verification of the revenue-split and transaction-consistency core of the
E-learning payment microservice.

The Lean definitions below are a shallow embedding of the JavaScript source:

* `calculatePlatformCommission` — `src/src/services/paymentService.js`
  lines 259-279 (identical copy in the second payment-service file,
  lines 979-999).  JavaScript numbers are modelled as exact rationals;
  `Math.round` (round half toward positive infinity) is `jsRound`.
* `processPayment` — the payment-service copy that constructs `AppError`
  with the three arguments `(name, message, statusCode)` used by the
  error-handling middleware (lines 695-921 of that file); the control
  flow coincides with `src/src/services/paymentService.js` lines 17-205.
* `processRefund` — `src/src/services/paymentService.js` lines 283-411
  (which destructures the optional `amount`); the `AppError` names and
  status codes at the throw sites follow the three-argument copy of the
  same function, since the error-handling middleware dispatches on the
  `name` field.
* `errorHandlerStatus` — `src/src/middleware/errorHandler.js` lines 21-85.
* `generateFinancialReport`, `invalidateTransactionCaches` — the reporting
  service (report cache) and statistics service (cache invalidation).

Database identifiers are modelled by a counter (`Ledger.nextId`); wall-clock
readings (`Date.now()`) are passed in as parameters.
-/

namespace ELearnPay

/-- JavaScript `Math.round`: rounds to the nearest integer, with halves
rounded toward positive infinity, i.e. `⌊x + 1/2⌋`. -/
def jsRound (x : ℚ) : ℤ := ⌊x + 1/2⌋

/-- JavaScript `Math.min` on (non-NaN) numbers. -/
def jsMin (a b : ℚ) : ℚ := if a ≤ b then a else b

/-- JavaScript `Math.max` on (non-NaN) numbers. -/
def jsMax (a b : ℚ) : ℚ := if a ≤ b then b else a

theorem jsMin_eq (a b : ℚ) : jsMin a b = min a b := by
  unfold jsMin; rw [min_def]

theorem jsMax_eq (a b : ℚ) : jsMax a b = max a b := by
  unfold jsMax; rw [max_def]

/-- Constant `PLATFORM_COMMISSION_PERCENTAGE` (paymentService.js line 13): the
configurable base commission rate, default `20`. -/
def PLATFORM_COMMISSION_PERCENTAGE : ℚ := 20

/-- The tiered commission percentage (paymentService.js lines 261-268):
`amount ≥ 500` gives the base rate minus 5, `amount ≥ 200` the base rate
minus 2, otherwise the base rate. -/
def commissionPercentage (amount : ℚ) : ℚ :=
  if amount ≥ 500 then PLATFORM_COMMISSION_PERCENTAGE - 5
  else if amount ≥ 200 then PLATFORM_COMMISSION_PERCENTAGE - 2
  else PLATFORM_COMMISSION_PERCENTAGE

/-- Fee estimate `stripeFee = 0.3 + 0.029 * amount` (paymentService.js line 270). -/
def stripeFee (amount : ℚ) : ℚ := 3/10 + 29/1000 * amount

/-- Net amount `netAmount = amount - stripeFee` (paymentService.js line 271). -/
def netAmount (amount : ℚ) : ℚ := amount - stripeFee amount

/-- The two components returned by the commission calculator. -/
structure CommissionSplit where
  platformCommission : ℚ
  educatorEarnings : ℚ
deriving DecidableEq, Repr

/-- Commission `platformCommission = Math.min(Math.max(Math.round((netAmount *
commissionPercentage) / 100), 1), amount * 0.5)` (paymentService.js
lines 272-275). -/
def platformCommissionOf (amount : ℚ) : ℚ :=
  jsMin (jsMax ((jsRound (netAmount amount * commissionPercentage amount / 100) : ℚ)) 1)
    (amount * (1/2))

/-- Earnings `educatorEarnings = Math.round(netAmount - platformCommission)`
(paymentService.js line 276). -/
def educatorEarningsOf (amount : ℚ) : ℚ :=
  (jsRound (netAmount amount - platformCommissionOf amount) : ℚ)

/-- Function `calculatePlatformCommission` (paymentService.js lines 259-279).
The `educatorId` parameter is unused in the source and omitted. -/
def calculatePlatformCommission (amount : ℚ) : CommissionSplit :=
  ⟨platformCommissionOf amount, educatorEarningsOf amount⟩

/-- The effective commission rate of an amount: commission divided by the
gross amount. -/
def effectiveRate (amount : ℚ) : ℚ :=
  (calculatePlatformCommission amount).platformCommission / amount

/-! ### Elementary bounds for the JavaScript rounding and clamping -/

theorem jsRound_le (x : ℚ) : (jsRound x : ℚ) ≤ x + 1/2 := by
  unfold jsRound
  exact_mod_cast Int.floor_le (x + 1/2)

theorem jsRound_ge (x : ℚ) : x - 1/2 ≤ (jsRound x : ℚ) := by
  unfold jsRound
  have h := Int.lt_floor_add_one (x + 1/2)
  push_cast at h ⊢
  linarith

theorem jsMin_le_right (a b : ℚ) : jsMin a b ≤ b := by
  rw [jsMin_eq]; exact min_le_right a b

theorem jsMin_le_left (a b : ℚ) : jsMin a b ≤ a := by
  rw [jsMin_eq]; exact min_le_left a b

theorem lt_jsMin {a b c : ℚ} (ha : c < a) (hb : c < b) : c < jsMin a b := by
  rw [jsMin_eq]; exact lt_min ha hb

theorem le_jsMin {a b c : ℚ} (ha : c ≤ a) (hb : c ≤ b) : c ≤ jsMin a b := by
  rw [jsMin_eq]; exact le_min ha hb

theorem jsMax_le {a b c : ℚ} (ha : a ≤ c) (hb : b ≤ c) : jsMax a b ≤ c := by
  rw [jsMax_eq]; exact max_le ha hb

theorem le_jsMax_left (a b : ℚ) : a ≤ jsMax a b := by
  rw [jsMax_eq]; exact le_max_left a b

theorem le_jsMax_right (a b : ℚ) : b ≤ jsMax a b := by
  rw [jsMax_eq]; exact le_max_right a b

/-! ### C1: guarantees of the commission calculator -/

/-- C1 (amended). For every amount `a > 0` the calculator returns
`0 < platformCommission ≤ 0.5·a` (in particular the commission is never
negative), and `platformCommission + educatorEarnings ≤ netAmount + 1/2 ≤
a + 1/2`, where `netAmount = a - (0.30 + 2.9%·a)` and `netAmount ≤ a`.
The slack of `1/2` is forced by the rounding of `educatorEarnings`
(see the counterexample at `a = 25`); the remaining conjuncts of the
original claim hold as stated. -/
theorem commission_guarantees (a : ℚ) (ha : 0 < a) :
    0 < (calculatePlatformCommission a).platformCommission ∧
    (calculatePlatformCommission a).platformCommission ≤ a * (1/2) ∧
    (calculatePlatformCommission a).platformCommission
        + (calculatePlatformCommission a).educatorEarnings ≤ netAmount a + 1/2 ∧
    netAmount a ≤ a := by
  unfold calculatePlatformCommission
  refine ⟨?_, ?_, ?_, ?_⟩
  · exact lt_jsMin (lt_of_lt_of_le one_pos (le_jsMax_right _ _)) (by linarith)
  · exact jsMin_le_right _ _
  · have h := jsRound_le (netAmount a - platformCommissionOf a)
    unfold educatorEarningsOf
    simp only
    linarith
  · unfold netAmount stripeFee
    linarith

/-- C1 witness: the guarantees at the concrete amount `99`. -/
theorem commission_guarantees_witness :
    (0:ℚ) < 99 ∧
    (0 < (calculatePlatformCommission 99).platformCommission ∧
     (calculatePlatformCommission 99).platformCommission ≤ 99 * (1/2) ∧
     (calculatePlatformCommission 99).platformCommission
        + (calculatePlatformCommission 99).educatorEarnings ≤ netAmount 99 + 1/2 ∧
     netAmount 99 ≤ 99) :=
  ⟨by norm_num, commission_guarantees 99 (by norm_num)⟩

/-- C1 counterexample: at `a = 25` the code yields commission `5` and
earnings `19`, whose sum `24` exceeds `netAmount 25 = 23.975`, refuting
the claimed `platformCommission + educatorEarnings ≤ netAmount`. -/
theorem commission_sum_exceeds_net_at_25 :
    ¬((calculatePlatformCommission 25).platformCommission
        + (calculatePlatformCommission 25).educatorEarnings ≤ netAmount 25) := by
  norm_num [calculatePlatformCommission, platformCommissionOf, educatorEarningsOf,
    jsMin, jsMax, jsRound, netAmount, stripeFee, commissionPercentage,
    PLATFORM_COMMISSION_PERCENTAGE]

/-! ### C3: monotonicity of the tiered commission rate -/

theorem commissionPercentage_high {a : ℚ} (h : 500 ≤ a) :
    commissionPercentage a = 15 := by
  unfold commissionPercentage PLATFORM_COMMISSION_PERCENTAGE
  rw [if_pos h]
  norm_num

theorem commissionPercentage_mid {a : ℚ} (h1 : 200 ≤ a) (h2 : a < 500) :
    commissionPercentage a = 18 := by
  unfold commissionPercentage PLATFORM_COMMISSION_PERCENTAGE
  rw [if_neg (not_le.mpr h2), if_pos h1]
  norm_num

theorem commissionPercentage_low {a : ℚ} (h : a < 200) :
    commissionPercentage a = 20 := by
  unfold commissionPercentage PLATFORM_COMMISSION_PERCENTAGE
  rw [if_neg (by linarith), if_neg (not_le.mpr h)]

theorem netAmount_eq (a : ℚ) : netAmount a = 971/1000 * a - 3/10 := by
  unfold netAmount stripeFee
  ring

theorem pc_le_high {a : ℚ} (h : 500 ≤ a) :
    platformCommissionOf a ≤ netAmount a * 15 / 100 + 1/2 := by
  unfold platformCommissionOf
  rw [commissionPercentage_high h]
  refine le_trans (jsMin_le_left _ _) (jsMax_le (jsRound_le _) ?_)
  rw [netAmount_eq]
  linarith

theorem pc_ge_mid {b : ℚ} (h1 : 200 ≤ b) (h2 : b < 500) :
    netAmount b * 18 / 100 - 1/2 ≤ platformCommissionOf b := by
  unfold platformCommissionOf
  rw [commissionPercentage_mid h1 h2]
  refine le_jsMin (le_trans (jsRound_ge _) (le_jsMax_left _ _)) ?_
  rw [netAmount_eq]
  linarith

theorem pc_le_mid {b : ℚ} (h1 : 200 ≤ b) (h2 : b < 500) :
    platformCommissionOf b ≤ netAmount b * 18 / 100 + 1/2 := by
  unfold platformCommissionOf
  rw [commissionPercentage_mid h1 h2]
  refine le_trans (jsMin_le_left _ _) (jsMax_le (jsRound_le _) ?_)
  rw [netAmount_eq]
  linarith

theorem pc_ge_low {c : ℚ} (h1 : 33 ≤ c) (h2 : c < 200) :
    netAmount c * 20 / 100 - 1/2 ≤ platformCommissionOf c := by
  unfold platformCommissionOf
  rw [commissionPercentage_low h2]
  refine le_jsMin (le_trans (jsRound_ge _) (le_jsMax_left _ _)) ?_
  rw [netAmount_eq]
  linarith

/-- C3 (amended). The tier comparison `a ≥ 500` versus `b ∈ [200,500)`
holds for all such amounts, and the comparison `b ∈ [200,500)` versus
`c < 200` holds for `c ≥ 33`.  For amounts below `33` the minimum-commission
clamp and the rounding can push the effective rate of the lowest tier below
the mid tier (see the counterexample at `c = 7`). -/
theorem effectiveRate_tier_monotone :
    (∀ a b : ℚ, 500 ≤ a → 200 ≤ b → b < 500 → effectiveRate a ≤ effectiveRate b) ∧
    (∀ b c : ℚ, 200 ≤ b → b < 500 → 33 ≤ c → c < 200 → effectiveRate b ≤ effectiveRate c) := by
  constructor
  · intro a b h5 h2 hb
    have ha0 : (0:ℚ) < a := by linarith
    have hb0 : (0:ℚ) < b := by linarith
    unfold effectiveRate calculatePlatformCommission
    simp only
    rw [div_le_div_iff₀ ha0 hb0]
    calc platformCommissionOf a * b
        ≤ (netAmount a * 15 / 100 + 1/2) * b :=
          mul_le_mul_of_nonneg_right (pc_le_high h5) (le_of_lt hb0)
      _ ≤ (netAmount b * 18 / 100 - 1/2) * a := by
          rw [netAmount_eq a, netAmount_eq b]
          nlinarith [mul_nonneg (by linarith : (0:ℚ) ≤ a - 500)
            (by linarith : (0:ℚ) ≤ b - 200)]
      _ ≤ platformCommissionOf b * a :=
          mul_le_mul_of_nonneg_right (pc_ge_mid h2 hb) (le_of_lt ha0)
  · intro b c h2 hb h33 hc
    have hb0 : (0:ℚ) < b := by linarith
    have hc0 : (0:ℚ) < c := by linarith
    unfold effectiveRate calculatePlatformCommission
    simp only
    rw [div_le_div_iff₀ hb0 hc0]
    calc platformCommissionOf b * c
        ≤ (netAmount b * 18 / 100 + 1/2) * c :=
          mul_le_mul_of_nonneg_right (pc_le_mid h2 hb) (le_of_lt hc0)
      _ ≤ (netAmount c * 20 / 100 - 1/2) * b := by
          rw [netAmount_eq b, netAmount_eq c]
          nlinarith [mul_nonneg (by linarith : (0:ℚ) ≤ b - 200)
            (by linarith : (0:ℚ) ≤ c - 33)]
      _ ≤ platformCommissionOf c * b :=
          mul_le_mul_of_nonneg_right (pc_ge_low h33 hc) (le_of_lt hb0)

/-- C3 witness: the amended monotonicity at the concrete amounts
`500`, `200` and `40`. -/
theorem effectiveRate_tier_monotone_witness :
    effectiveRate 500 ≤ effectiveRate 200 ∧ effectiveRate 200 ≤ effectiveRate 40 :=
  ⟨effectiveRate_tier_monotone.1 500 200 (by norm_num) (by norm_num) (by norm_num),
   effectiveRate_tier_monotone.2 200 40 (by norm_num) (by norm_num) (by norm_num)
     (by norm_num)⟩

/-- C3 counterexample: the effective rate at amount `200` (mid tier,
`35/200 = 0.175`) exceeds the effective rate at amount `7` (low tier,
`1/7 ≈ 0.143`, forced up to the minimum commission of `1`), refuting the
claim that the mid-tier rate is always at most the low-tier rate. -/
theorem effectiveRate_200_gt_7 : ¬(effectiveRate 200 ≤ effectiveRate 7) := by
  norm_num [effectiveRate, calculatePlatformCommission, platformCommissionOf,
    educatorEarningsOf, jsMin, jsMax, jsRound, netAmount, stripeFee,
    commissionPercentage, PLATFORM_COMMISSION_PERCENTAGE]

/-! ### Data model: transactions, invoices, payout accounts, ledger -/

/-- Transaction `status` enum (prisma schema). -/
inductive TxStatus where
  | PENDING | COMPLETED | FAILED | REFUNDED | DISPUTED
deriving DecidableEq, Repr

/-- Transaction `type` enum (prisma schema). -/
inductive TxType where
  | PAYMENT | REFUND
deriving DecidableEq, Repr

/-- Invoice `status` enum (prisma schema). -/
inductive InvoiceStatus where
  | DRAFT | ISSUED | PAID | CANCELLED
deriving DecidableEq, Repr

/-- A `Transaction` row.  Database row identifiers are modelled as naturals
allocated from `Ledger.nextId`; the `metadata.originalTransactionId` entry
of refund rows is lifted to a field. -/
structure Transaction where
  id : Nat
  stripeChargeId : Option String := none
  amount : ℚ
  currency : String := "USD"
  status : TxStatus
  type : TxType
  platformCommission : ℚ
  educatorEarnings : ℚ
  userId : String
  courseId : String
  educatorId : String
  refundId : Option Nat := none
  originalTransactionId : Option Nat := none
deriving DecidableEq, Repr

/-- An `Invoice` row (1:1 with a transaction). -/
structure Invoice where
  id : Nat
  transactionId : Nat
  subtotal : ℚ
  total : ℚ
  status : InvoiceStatus
  notes : String := ""
deriving DecidableEq, Repr

/-- A `StripeAccount` row: an educator payout account. -/
structure StripeAccount where
  educatorId : String
  stripeAccountId : String
deriving DecidableEq, Repr

/-- The relational store: transaction, invoice and payout-account tables,
plus the id allocator. -/
structure Ledger where
  transactions : List Transaction
  invoices : List Invoice
  stripeAccounts : List StripeAccount
  nextId : Nat
deriving DecidableEq, Repr

/-- Error class `AppError` (errorHandler.js lines 6-16): carries the dispatch `name`,
the human-readable `message` and the HTTP `statusCode` passed at the throw
site. -/
structure AppError where
  name : String
  message : String
  statusCode : Nat
deriving DecidableEq, Repr

/-- The HTTP status the error-handling middleware responds with
(errorHandler.js lines 21-85): the error name is matched against the known
taxonomy and otherwise the status code carried by the error (default 500)
is used.  The `ValidationError`/JWT/`P2002` branches concern foreign error
objects and are included for completeness. -/
def errorHandlerStatus (e : AppError) : Nat :=
  if e.name = "ValidationError" then 400
  else if e.name = "JsonWebTokenError" then 401
  else if e.name = "TokenExpiredError" then 401
  else if e.name = "enrollment_check_err" then 400
  else if e.name = "refund_err" then 400
  else if e.name = "report_err" then 500
  else if e.name = "transaction_err" then 400
  else if e.name = "fetching_err" then 404
  else if e.name = "already_enrolled_err" then 409
  else if e.name = "edu_not_found_err" then 404
  else e.statusCode

/-! ### Payment orchestrator -/

/-- One call to the payment gateway, as recorded for the claims about
which external calls an operation performs. -/
inductive GatewayCall where
  | paymentIntentsCreate (amountCents : ℤ) (applicationFeeCents : ℤ) (destination : String)
  | paymentIntentsRetrieve (paymentIntentId : String)
  | chargesRetrieve (chargeId : String)
  | refundsCreate (chargeId : String) (amountCents : ℤ)
  | transfersCreateReversal (transferId : String) (amountCents : ℚ)
deriving DecidableEq, Repr

/-- The gateway's response to `stripe.paymentIntents.create`: whether the
call succeeded, the payment-intent id, and its reported status. -/
structure StripeChargeOutcome where
  ok : Bool
  id : String
  status : String
  err : AppError := ⟨"StripeError", "stripe call failed", 500⟩
deriving DecidableEq, Repr

/-- A payment request body (`{courseId, amount, currency, source,
description?, educatorId}`). -/
structure PaymentRequest where
  courseId : String
  amount : ℚ
  currency : String := "USD"
  source : String
  description : Option String := none
  educatorId : String
deriving DecidableEq, Repr

/-- The acting user resolved from the bearer token. -/
structure User where
  id : String
  name : Option String := none
  email : Option String := none
deriving DecidableEq, Repr

/-- The stage timings `m1..m4` measured by `processPayment`; wall-clock
readings are parameters of the embedding. -/
structure Matrices where
  m1 : Nat
  m2 : Nat
  m3 : Nat
  m4 : Nat
deriving DecidableEq, Repr

/-- The value returned by a successful `processPayment`
(paymentService.js lines 875-879 / 161-165): `{success: true,
processingTime, matrices}`. -/
structure PaymentResult where
  success : Bool
  processingTime : Nat
  matrices : Matrices
deriving DecidableEq, Repr

/-- The outcome of one `processPayment` run: the thrown error or returned
value, the resulting store, and the gateway calls performed. -/
structure PaymentRun where
  result : Except AppError PaymentResult
  ledger : Ledger
  gatewayLog : List GatewayCall
deriving Repr

/-- The duplicate-enrollment check (paymentService.js lines 31-35): the
first transaction with the given course, user and status `COMPLETED`. -/
def findCompletedTransaction (l : Ledger) (courseId userId : String) : Option Transaction :=
  l.transactions.find? fun t =>
    t.courseId == courseId && t.userId == userId && t.status == TxStatus.COMPLETED

/-- The educator payout-account lookup (paymentService.js lines 37-40). -/
def findStripeAccount (l : Ledger) (educatorId : String) : Option StripeAccount :=
  l.stripeAccounts.find? fun a => a.educatorId == educatorId

/-- The fire-and-forget `FAILED`-transaction record written on the payment
error path when `courseId && amount && user?.id` are truthy
(paymentService.js lines 170-201). -/
def recordFailedTransaction (l : Ledger) (req : PaymentRequest) (userId : String) : Ledger :=
  if req.courseId ≠ "" ∧ req.amount ≠ 0 ∧ userId ≠ "" then
    { l with
      transactions := l.transactions ++
        [{ id := l.nextId
           amount := req.amount
           currency := req.currency
           status := TxStatus.FAILED
           type := TxType.PAYMENT
           platformCommission := 0
           educatorEarnings := 0
           userId := userId
           courseId := req.courseId
           educatorId := req.educatorId }]
      nextId := l.nextId + 1 }
  else l

/-- The `Transaction` row persisted by a successful payment
(paymentService.js lines 77-96): status `COMPLETED` when the gateway
reports `succeeded`, otherwise `PENDING`; the commission split comes from
`calculatePlatformCommission`. -/
def mkPaymentTransaction (l : Ledger) (gw : StripeChargeOutcome)
    (req : PaymentRequest) (user : User) : Transaction :=
  { id := l.nextId
    stripeChargeId := some gw.id
    amount := req.amount
    currency := req.currency
    status := if gw.status = "succeeded" then TxStatus.COMPLETED else TxStatus.PENDING
    type := TxType.PAYMENT
    platformCommission := (calculatePlatformCommission req.amount).platformCommission
    educatorEarnings := (calculatePlatformCommission req.amount).educatorEarnings
    userId := user.id
    courseId := req.courseId
    educatorId := req.educatorId }

/-- The `Invoice` row persisted alongside the payment transaction
(paymentService.js lines 99-114): `subtotal = total = amount`, status
`PAID`. -/
def mkPaymentInvoice (l : Ledger) (req : PaymentRequest) : Invoice :=
  { id := l.nextId + 1
    transactionId := l.nextId
    subtotal := req.amount
    total := req.amount
    status := InvoiceStatus.PAID }

/-- Function `processPayment` (the three-argument-`AppError` payment-service copy,
lines 695-921; control flow identical to paymentService.js lines 17-205):
checks for duplicate enrollment and for the educator payout account,
computes the commission split, creates and confirms the gateway charge,
then persists the transaction and invoice in one database transaction.
On any error a `FAILED` transaction record is written fire-and-forget and
the original error is rethrown. -/
def processPayment (l : Ledger) (gw : StripeChargeOutcome) (timing : Matrices)
    (processingTime : Nat) (req : PaymentRequest) (user : User) : PaymentRun :=
  let duplicateCheck := findCompletedTransaction l req.courseId user.id
  match findStripeAccount l req.educatorId with
  | none =>
      { result := Except.error ⟨"edu_not_found_err", "Educator account not found", 400⟩
        ledger := recordFailedTransaction l req user.id
        gatewayLog := [] }
  | some acct =>
      if duplicateCheck.isSome then
        { result := Except.error
            ⟨"already_enrolled_err", "User already enrolled in this course", 400⟩
          ledger := recordFailedTransaction l req user.id
          gatewayLog := [] }
      else
        let chargeCall := GatewayCall.paymentIntentsCreate (jsRound (req.amount * 100))
          (jsRound ((calculatePlatformCommission req.amount).platformCommission * 100))
          acct.stripeAccountId
        if gw.ok then
          { result := Except.ok ⟨true, processingTime, timing⟩
            ledger := { l with
              transactions := l.transactions ++ [mkPaymentTransaction l gw req user]
              invoices := l.invoices ++ [mkPaymentInvoice l req]
              nextId := l.nextId + 2 }
            gatewayLog := [chargeCall] }
        else
          { result := Except.error gw.err
            ledger := recordFailedTransaction l req user.id
            gatewayLog := [chargeCall] }

/-- Run equation: payment rejected because the educator has no payout
account (paymentService.js lines 721-727). -/
theorem processPayment_no_account (l : Ledger) (gw : StripeChargeOutcome)
    (tm : Matrices) (pt : Nat) (req : PaymentRequest) (user : User)
    (hacct : findStripeAccount l req.educatorId = none) :
    processPayment l gw tm pt req user =
      { result := Except.error ⟨"edu_not_found_err", "Educator account not found", 400⟩
        ledger := recordFailedTransaction l req user.id
        gatewayLog := [] } := by
  unfold processPayment
  rw [hacct]

/-- Run equation: payment rejected because a `COMPLETED` transaction for
the same course and user already exists (paymentService.js lines
728-734). -/
theorem processPayment_duplicate (l : Ledger) (gw : StripeChargeOutcome)
    (tm : Matrices) (pt : Nat) (req : PaymentRequest) (user : User)
    (acct : StripeAccount)
    (hacct : findStripeAccount l req.educatorId = some acct)
    (hdup : (findCompletedTransaction l req.courseId user.id).isSome = true) :
    processPayment l gw tm pt req user =
      { result := Except.error
          ⟨"already_enrolled_err", "User already enrolled in this course", 400⟩
        ledger := recordFailedTransaction l req user.id
        gatewayLog := [] } := by
  unfold processPayment
  rw [hacct]
  simp only [hdup, if_true]

/-- Run equation: the successful payment path (validation passes and the
gateway call succeeds). -/
theorem processPayment_success (l : Ledger) (gw : StripeChargeOutcome)
    (tm : Matrices) (pt : Nat) (req : PaymentRequest) (user : User)
    (acct : StripeAccount)
    (hacct : findStripeAccount l req.educatorId = some acct)
    (hdup : findCompletedTransaction l req.courseId user.id = none)
    (hok : gw.ok = true) :
    processPayment l gw tm pt req user =
      { result := Except.ok ⟨true, pt, tm⟩
        ledger := { l with
          transactions := l.transactions ++ [mkPaymentTransaction l gw req user]
          invoices := l.invoices ++ [mkPaymentInvoice l req]
          nextId := l.nextId + 2 }
        gatewayLog := [GatewayCall.paymentIntentsCreate (jsRound (req.amount * 100))
          (jsRound ((calculatePlatformCommission req.amount).platformCommission * 100))
          acct.stripeAccountId] } := by
  unfold processPayment
  rw [hacct]
  simp only [hdup, Option.isSome_none, Bool.false_eq_true, if_false, if_pos hok]

/-! ### Refund orchestrator -/

/-- A refund request body (`{transactionId, amount?, reason?}`). -/
structure RefundRequest where
  transactionId : Nat
  amount : Option ℚ := none
  reason : Option String := none
deriving Repr

/-- The gateway environment seen by a refund: the payment intent's latest
charge, the charge's transfer, the id of the refund the gateway creates,
and whether the gateway calls succeed. -/
structure RefundGatewayEnv where
  ok : Bool
  latestCharge : String := "ch_1"
  transfer : String := "tr_1"
  refundId : String := "re_1"
  err : AppError := ⟨"StripeError", "stripe call failed", 500⟩
deriving Repr

/-- The value returned by a successful `processRefund` (paymentService.js
lines 402-406): the originally fetched transaction (before its status
update), the new refund transaction, and a success flag. -/
structure RefundResult where
  originalTransaction : Transaction
  refundTransaction : Transaction
  success : Bool
deriving Repr

/-- The outcome of one `processRefund` run. -/
structure RefundRun where
  result : Except AppError RefundResult
  ledger : Ledger
  gatewayLog : List GatewayCall
deriving Repr

/-- The catch-all wrapper of `processRefund` (paymentService.js lines
407-410): every error thrown inside the refund flow is rethrown as
`refund_err` with status 400 and a prefixed message. -/
def wrapRefundError (e : AppError) : AppError :=
  ⟨"refund_err", "Refund processing failed: " ++ e.message, 400⟩

/-- Modelled from the spec: `invoiceService.updateInvoiceStatus
(transactionId, status, note)` — the invoice-service implementation file is
not among the sources; spec §4.3 states the refund flow updates the
original transaction's invoice to `CANCELLED` with a note. -/
def updateInvoiceStatus (invoices : List Invoice) (transactionId : Nat)
    (status : InvoiceStatus) (note : String) : List Invoice :=
  invoices.map fun i =>
    if i.transactionId == transactionId then
      { i with status := status, notes := note }
    else i

/-- The compensating `REFUND` transaction created by `processRefund`
(paymentService.js lines 320-347): `refundRatio = refundAmount /
originalAmount`, the commission and earnings are the original ones scaled
by the ratio and negated, and the `userId` is the original user id with
the literal suffix `"_REFUND"` appended. -/
def mkRefundTransaction (l : Ledger) (gw : RefundGatewayEnv)
    (originalTransaction : Transaction) (refundAmount : ℚ) : Transaction :=
  let refundRatio := refundAmount / originalTransaction.amount
  let refundedCommission := originalTransaction.platformCommission * refundRatio
  let refundedEarnings := originalTransaction.educatorEarnings * refundRatio
  { id := l.nextId
    stripeChargeId := some gw.refundId
    amount := refundAmount
    currency := originalTransaction.currency
    status := TxStatus.COMPLETED
    type := TxType.REFUND
    platformCommission := -refundedCommission
    educatorEarnings := -refundedEarnings
    userId := originalTransaction.userId ++ "_REFUND"
    courseId := originalTransaction.courseId
    educatorId := originalTransaction.educatorId
    originalTransactionId := some originalTransaction.id }

/-- The update applied to the transaction table by step 5 of
`processRefund` (paymentService.js lines 349-356): the row whose id equals
the requested `transactionId` gets status `REFUNDED` and its `refundId`
set to the id of the new refund row. -/
def refundStatusUpdate (transactionId refundTxnId : Nat) (t : Transaction) : Transaction :=
  if t.id == transactionId then
    { t with status := TxStatus.REFUNDED, refundId := some refundTxnId }
  else t

/-- Function `processRefund` (paymentService.js lines 283-411; the `AppError`
names/status codes follow the three-argument copy of the same function):
fetches the original transaction, rejects a missing or already refunded
one, performs the gateway retrieve/refund/reversal calls, creates the
compensating `REFUND` transaction with the prorated negated split, updates
the original transaction to `REFUNDED` with its `refundId`, and cancels
the invoice.  The new row's id is allocated from `Ledger.nextId`; the
status update then targets the row whose id equals `transactionId`. -/
def processRefund (l : Ledger) (gw : RefundGatewayEnv) (req : RefundRequest)
    (_user : User) : RefundRun :=
  match l.transactions.find? (fun t => t.id == req.transactionId) with
  | none =>
      { result := Except.error
          (wrapRefundError ⟨"transaction_err", "Transaction not found", 404⟩)
        ledger := l
        gatewayLog := [] }
  | some originalTransaction =>
      if originalTransaction.status = TxStatus.REFUNDED then
        { result := Except.error
            (wrapRefundError ⟨"transaction_err", "Transaction already refunded", 400⟩)
          ledger := l
          gatewayLog := [] }
      else
        let refundAmount := req.amount.getD originalTransaction.amount
        if gw.ok then
          let refundTransaction := mkRefundTransaction l gw originalTransaction refundAmount
          { result := Except.ok ⟨originalTransaction, refundTransaction, true⟩
            ledger := { l with
              transactions := (l.transactions ++ [refundTransaction]).map
                (refundStatusUpdate req.transactionId refundTransaction.id)
              invoices := updateInvoiceStatus l.invoices originalTransaction.id
                InvoiceStatus.CANCELLED "Refunded"
              nextId := l.nextId + 1 }
            gatewayLog :=
              [GatewayCall.paymentIntentsRetrieve (originalTransaction.stripeChargeId.getD ""),
               GatewayCall.chargesRetrieve gw.latestCharge,
               GatewayCall.refundsCreate gw.latestCharge (jsRound (refundAmount * 100)),
               GatewayCall.transfersCreateReversal gw.transfer
                 (originalTransaction.educatorEarnings * 100)] }
        else
          { result := Except.error (wrapRefundError gw.err)
            ledger := l
            gatewayLog :=
              [GatewayCall.paymentIntentsRetrieve
                (originalTransaction.stripeChargeId.getD "")] }

/-- Function `getTransactionsByUser` (paymentService.js lines 439-471): the rows
whose `userId` equals the given user id, paginated with
`skip = (page-1)*limit` and `take = limit` (the `createdAt` ordering is the
insertion order of the list model). -/
def getTransactionsByUser (l : Ledger) (userId : String) (page limit : Nat) :
    List Transaction :=
  ((l.transactions.filter fun t => t.userId == userId).drop ((page - 1) * limit)).take limit

/-- Database invariant: every stored row id is below the id allocator. -/
def Ledger.WF (l : Ledger) : Prop :=
  ∀ t ∈ l.transactions, t.id < l.nextId

/-! ### C4: refund proration -/

/-- C4.  For every successful refund — the original transaction is found,
is not yet `REFUNDED`, has positive amount (so that the refund ratio is a
genuine ratio) and the gateway calls succeed — the created `REFUND`
transaction carries commission exactly `−r·C` and earnings exactly `−r·E`
for `r = refundAmount / originalAmount` (the equalities are exact, with no
rounding at all), it is stored, and the stored original transaction is
updated to status `REFUNDED` with `refundId` pointing at the new row. -/
theorem processRefund_proration (l : Ledger) (gw : RefundGatewayEnv)
    (req : RefundRequest) (user : User) (orig : Transaction)
    (hwf : Ledger.WF l)
    (hfind : l.transactions.find? (fun t => t.id == req.transactionId) = some orig)
    (hst : orig.status ≠ TxStatus.REFUNDED)
    (hok : gw.ok = true)
    (_hamt : 0 < orig.amount) :
    ∃ res : RefundResult,
      (processRefund l gw req user).result = Except.ok res ∧
      res.refundTransaction.type = TxType.REFUND ∧
      res.refundTransaction.status = TxStatus.COMPLETED ∧
      res.refundTransaction.amount = req.amount.getD orig.amount ∧
      res.refundTransaction.platformCommission
        = -(orig.platformCommission * (req.amount.getD orig.amount / orig.amount)) ∧
      res.refundTransaction.educatorEarnings
        = -(orig.educatorEarnings * (req.amount.getD orig.amount / orig.amount)) ∧
      res.refundTransaction ∈ (processRefund l gw req user).ledger.transactions ∧
      ∃ t' ∈ (processRefund l gw req user).ledger.transactions,
        t'.id = orig.id ∧ t'.status = TxStatus.REFUNDED ∧
        t'.refundId = some res.refundTransaction.id := by
  have hmem : orig ∈ l.transactions := List.mem_of_find?_eq_some hfind
  have hpred := List.find?_some hfind
  have hidb : (orig.id == req.transactionId) = true := by simpa using hpred
  have hid : orig.id = req.transactionId := by simpa using hidb
  have hlt : req.transactionId < l.nextId := hid ▸ hwf orig hmem
  have hne : (l.nextId == req.transactionId) = false := by
    simp only [beq_eq_false_iff_ne, ne_eq]
    omega
  unfold processRefund
  rw [hfind]
  simp only [if_neg hst, if_pos hok]
  refine ⟨_, rfl, rfl, rfl, rfl, rfl, rfl, ?_, ?_⟩
  · have hmm : mkRefundTransaction l gw orig (req.amount.getD orig.amount)
        ∈ l.transactions ++ [mkRefundTransaction l gw orig (req.amount.getD orig.amount)] :=
      List.mem_append_right _ (List.mem_singleton_self _)
    have hmap := List.mem_map_of_mem
      (refundStatusUpdate req.transactionId
        (mkRefundTransaction l gw orig (req.amount.getD orig.amount)).id) hmm
    simp only [refundStatusUpdate, mkRefundTransaction, hne, Bool.false_eq_true,
      if_false] at hmap
    simpa using hmap
  · refine ⟨({ orig with
        status := TxStatus.REFUNDED
        refundId := some (mkRefundTransaction l gw orig (req.amount.getD orig.amount)).id }
        : Transaction),
      ?_, rfl, rfl, rfl⟩
    have hmm : orig ∈ l.transactions ++
        [mkRefundTransaction l gw orig (req.amount.getD orig.amount)] :=
      List.mem_append_left _ hmem
    have hmap := List.mem_map_of_mem
      (refundStatusUpdate req.transactionId
        (mkRefundTransaction l gw orig (req.amount.getD orig.amount)).id) hmm
    simpa [refundStatusUpdate, hidb] using hmap

/-- The one-transaction store used as the concrete input of the refund
witnesses: a completed payment of `100` with commission `19` and earnings
`77`. -/
def sampleOriginalTransaction : Transaction :=
  { id := 0
    stripeChargeId := some "pi_0"
    amount := 100
    status := TxStatus.COMPLETED
    type := TxType.PAYMENT
    platformCommission := 19
    educatorEarnings := 77
    userId := "user_1"
    courseId := "course_1"
    educatorId := "edu_1" }

/-- A ledger holding exactly `sampleOriginalTransaction` and its invoice. -/
def sampleLedger : Ledger :=
  { transactions := [sampleOriginalTransaction]
    invoices := [{ id := 1, transactionId := 0, subtotal := 100, total := 100,
                   status := InvoiceStatus.PAID }]
    stripeAccounts := [⟨"edu_1", "acct_1"⟩]
    nextId := 2 }

/-- C4 witness: a concrete half-refund (`50` of `100`) against
`sampleLedger` satisfies the proration theorem. -/
theorem processRefund_proration_witness :
    ∃ res : RefundResult,
      (processRefund sampleLedger ⟨true, "ch_0", "tr_0", "re_0",
          ⟨"StripeError", "stripe call failed", 500⟩⟩
        ⟨0, some 50, none⟩ ⟨"admin_1", none, none⟩).result = Except.ok res ∧
      res.refundTransaction.type = TxType.REFUND ∧
      res.refundTransaction.status = TxStatus.COMPLETED ∧
      res.refundTransaction.amount = (some (50:ℚ)).getD sampleOriginalTransaction.amount ∧
      res.refundTransaction.platformCommission
        = -(sampleOriginalTransaction.platformCommission
            * ((some (50:ℚ)).getD sampleOriginalTransaction.amount
               / sampleOriginalTransaction.amount)) ∧
      res.refundTransaction.educatorEarnings
        = -(sampleOriginalTransaction.educatorEarnings
            * ((some (50:ℚ)).getD sampleOriginalTransaction.amount
               / sampleOriginalTransaction.amount)) ∧
      res.refundTransaction ∈ (processRefund sampleLedger ⟨true, "ch_0", "tr_0", "re_0",
          ⟨"StripeError", "stripe call failed", 500⟩⟩
        ⟨0, some 50, none⟩ ⟨"admin_1", none, none⟩).ledger.transactions ∧
      ∃ t' ∈ (processRefund sampleLedger ⟨true, "ch_0", "tr_0", "re_0",
          ⟨"StripeError", "stripe call failed", 500⟩⟩
        ⟨0, some 50, none⟩ ⟨"admin_1", none, none⟩).ledger.transactions,
        t'.id = sampleOriginalTransaction.id ∧ t'.status = TxStatus.REFUNDED ∧
        t'.refundId = some res.refundTransaction.id :=
  processRefund_proration sampleLedger _ _ _ sampleOriginalTransaction
    (by intro t ht; simp only [sampleLedger, List.mem_singleton] at ht
        subst ht; norm_num [sampleOriginalTransaction, sampleLedger])
    (by simp [sampleLedger, sampleOriginalTransaction])
    (by simp [sampleOriginalTransaction])
    rfl
    (by norm_num [sampleOriginalTransaction])

/-! ### C5: refund of an already refunded transaction -/

/-- C5 (amended).  Refunding a transaction whose status is already
`REFUNDED` fails before any gateway call (no charge retrieval, refund
creation or transfer reversal is performed, and the store is untouched),
but the surfaced HTTP status is `400` — the `transaction_err` thrown at
the check is wrapped by the catch-all into `refund_err`, which the
error-handling middleware maps to `400`, not to `409 Conflict`. -/
theorem processRefund_already_refunded (l : Ledger) (gw : RefundGatewayEnv)
    (req : RefundRequest) (user : User) (orig : Transaction)
    (hfind : l.transactions.find? (fun t => t.id == req.transactionId) = some orig)
    (hst : orig.status = TxStatus.REFUNDED) :
    (processRefund l gw req user).result = Except.error
      ⟨"refund_err", "Refund processing failed: Transaction already refunded", 400⟩ ∧
    errorHandlerStatus
      ⟨"refund_err", "Refund processing failed: Transaction already refunded", 400⟩ = 400 ∧
    (processRefund l gw req user).gatewayLog = [] ∧
    (processRefund l gw req user).ledger = l := by
  unfold processRefund
  rw [hfind]
  simp only [if_pos hst]
  exact ⟨rfl, rfl, trivial, trivial⟩

/-- A store holding one transaction that is already `REFUNDED`. -/
def refundedSampleLedger : Ledger :=
  { transactions := [{ sampleOriginalTransaction with status := TxStatus.REFUNDED }]
    invoices := []
    stripeAccounts := []
    nextId := 1 }

/-- C5 witness: the amended behaviour on `refundedSampleLedger`. -/
theorem processRefund_already_refunded_witness :
    (processRefund refundedSampleLedger ⟨true, "ch_0", "tr_0", "re_0",
        ⟨"StripeError", "stripe call failed", 500⟩⟩
      ⟨0, none, none⟩ ⟨"admin_1", none, none⟩).result = Except.error
      ⟨"refund_err", "Refund processing failed: Transaction already refunded", 400⟩ ∧
    errorHandlerStatus
      ⟨"refund_err", "Refund processing failed: Transaction already refunded", 400⟩ = 400 ∧
    (processRefund refundedSampleLedger ⟨true, "ch_0", "tr_0", "re_0",
        ⟨"StripeError", "stripe call failed", 500⟩⟩
      ⟨0, none, none⟩ ⟨"admin_1", none, none⟩).gatewayLog = [] ∧
    (processRefund refundedSampleLedger ⟨true, "ch_0", "tr_0", "re_0",
        ⟨"StripeError", "stripe call failed", 500⟩⟩
      ⟨0, none, none⟩ ⟨"admin_1", none, none⟩).ledger = refundedSampleLedger :=
  processRefund_already_refunded refundedSampleLedger _ _ _
    { sampleOriginalTransaction with status := TxStatus.REFUNDED } rfl rfl

/-- C5 counterexample: on the concrete already-refunded store the surfaced
HTTP status is `400` and in particular not the claimed `409 Conflict`
(the gateway log being empty, the no-gateway-call half does hold). -/
theorem refund_of_refund_not_conflict :
    ∃ e : AppError,
      (processRefund refundedSampleLedger ⟨true, "ch_0", "tr_0", "re_0",
          ⟨"StripeError", "stripe call failed", 500⟩⟩
        ⟨0, none, none⟩ ⟨"admin_1", none, none⟩).result = Except.error e ∧
      errorHandlerStatus e = 400 ∧ ¬(errorHandlerStatus e = 409) ∧
      (processRefund refundedSampleLedger ⟨true, "ch_0", "tr_0", "re_0",
          ⟨"StripeError", "stripe call failed", 500⟩⟩
        ⟨0, none, none⟩ ⟨"admin_1", none, none⟩).gatewayLog = [] := by
  exact ⟨⟨"refund_err", "Refund processing failed: Transaction already refunded", 400⟩,
    rfl, rfl, by decide, rfl⟩

/-! ### C10: the refund row is keyed to a suffixed user id -/

theorem append_REFUND_ne (s : String) : s ++ "_REFUND" ≠ s := by
  intro h
  have hlen := congrArg String.length h
  rw [String.length_append] at hlen
  have hseven : "_REFUND".length = 7 := rfl
  omega

/-- C10.  Every successful refund stores the compensating row under
`originalUserId ++ "_REFUND"`, not under the purchaser's user id; hence a
per-user transaction listing for the original user id (any page, any
limit) never contains the refund row. -/
theorem refund_row_hidden_from_user_listing (l : Ledger) (gw : RefundGatewayEnv)
    (req : RefundRequest) (user : User) (orig : Transaction)
    (hfind : l.transactions.find? (fun t => t.id == req.transactionId) = some orig)
    (hst : orig.status ≠ TxStatus.REFUNDED)
    (hok : gw.ok = true) :
    ∃ res : RefundResult,
      (processRefund l gw req user).result = Except.ok res ∧
      res.refundTransaction.userId = orig.userId ++ "_REFUND" ∧
      ∀ page limit : Nat,
        res.refundTransaction ∉
          getTransactionsByUser (processRefund l gw req user).ledger orig.userId page limit := by
  unfold processRefund
  rw [hfind]
  simp only [if_neg hst, if_pos hok]
  refine ⟨_, rfl, rfl, ?_⟩
  intro page limit hmem
  unfold getTransactionsByUser at hmem
  have h1 := List.mem_of_mem_take hmem
  have h2 := List.mem_of_mem_drop h1
  have h3 := List.mem_filter.mp h2
  have h4 : (mkRefundTransaction l gw orig (req.amount.getD orig.amount)).userId
      = orig.userId := by
    have hb := h3.2
    simp only [beq_iff_eq] at hb
    exact hb
  have h5 : (mkRefundTransaction l gw orig (req.amount.getD orig.amount)).userId
      = orig.userId ++ "_REFUND" := rfl
  exact append_REFUND_ne orig.userId (h5 ▸ h4)

/-- C10 witness: the concrete full refund on `sampleLedger`. -/
theorem refund_row_hidden_from_user_listing_witness :
    ∃ res : RefundResult,
      (processRefund sampleLedger ⟨true, "ch_0", "tr_0", "re_0",
          ⟨"StripeError", "stripe call failed", 500⟩⟩
        ⟨0, none, none⟩ ⟨"admin_1", none, none⟩).result = Except.ok res ∧
      res.refundTransaction.userId = sampleOriginalTransaction.userId ++ "_REFUND" ∧
      ∀ page limit : Nat,
        res.refundTransaction ∉
          getTransactionsByUser (processRefund sampleLedger ⟨true, "ch_0", "tr_0", "re_0",
              ⟨"StripeError", "stripe call failed", 500⟩⟩
            ⟨0, none, none⟩ ⟨"admin_1", none, none⟩).ledger
            sampleOriginalTransaction.userId page limit :=
  refund_row_hidden_from_user_listing sampleLedger _ _ _ sampleOriginalTransaction
    (by simp [sampleLedger, sampleOriginalTransaction])
    (by simp [sampleOriginalTransaction])
    rfl

/-! ### C6: duplicate enrollment is rejected with 409 -/

/-- The number of `COMPLETED` `PAYMENT` rows stored for a given
(course, user) pair. -/
def countCompletedPayments (l : Ledger) (courseId userId : String) : Nat :=
  l.transactions.countP fun t =>
    t.courseId == courseId && t.userId == userId &&
    t.status == TxStatus.COMPLETED && t.type == TxType.PAYMENT

theorem countCompletedPayments_recordFailed (l : Ledger) (req : PaymentRequest)
    (uid c u : String) :
    countCompletedPayments (recordFailedTransaction l req uid) c u
      = countCompletedPayments l c u := by
  unfold recordFailedTransaction countCompletedPayments
  split
  · have hb : (TxStatus.FAILED == TxStatus.COMPLETED) = false := rfl
    simp [hb]
  · rfl

theorem countCompletedPayments_eq_zero (l : Ledger) {c u : String}
    (h : findCompletedTransaction l c u = none) :
    countCompletedPayments l c u = 0 := by
  unfold findCompletedTransaction at h
  unfold countCompletedPayments
  rw [List.countP_eq_zero]
  intro t ht hp
  have hnone := List.find?_eq_none.mp h t ht
  simp only [Bool.and_eq_true] at hp hnone
  exact hnone hp.1

/-- C6.  If a first `processPayment` for `(courseId, user)` succeeds with a
gateway status of `succeeded` (creating the one `COMPLETED` `PAYMENT`
row), then a second call for the same pair fails with the
`already_enrolled_err` error, which the error-handling middleware surfaces
as HTTP `409 Conflict`, and the store still holds exactly one `COMPLETED`
`PAYMENT` row for the pair (the failure path records only a `FAILED`
row). -/
theorem processPayment_idempotent_conflict
    (l : Ledger) (gw gw2 : StripeChargeOutcome) (tm tm2 : Matrices) (pt pt2 : Nat)
    (req : PaymentRequest) (user : User) (acct : StripeAccount)
    (hacct : findStripeAccount l req.educatorId = some acct)
    (hdup : findCompletedTransaction l req.courseId user.id = none)
    (hok : gw.ok = true) (hsucc : gw.status = "succeeded") :
    ∃ res, (processPayment l gw tm pt req user).result = Except.ok res ∧
    ∃ e, (processPayment (processPayment l gw tm pt req user).ledger
            gw2 tm2 pt2 req user).result = Except.error e ∧
      e.name = "already_enrolled_err" ∧
      errorHandlerStatus e = 409 ∧
      countCompletedPayments
        (processPayment (processPayment l gw tm pt req user).ledger
          gw2 tm2 pt2 req user).ledger req.courseId user.id = 1 := by
  have h1 := processPayment_success l gw tm pt req user acct hacct hdup hok
  rw [h1]
  simp only
  have hqtxn : (fun t => t.courseId == req.courseId && t.userId == user.id &&
      t.status == TxStatus.COMPLETED) (mkPaymentTransaction l gw req user) = true := by
    simp [mkPaymentTransaction, hsucc]
  have hacct1 : findStripeAccount
      { l with
        transactions := l.transactions ++ [mkPaymentTransaction l gw req user]
        invoices := l.invoices ++ [mkPaymentInvoice l req]
        nextId := l.nextId + 2 } req.educatorId = some acct := hacct
  have hdup1 : (findCompletedTransaction
      { l with
        transactions := l.transactions ++ [mkPaymentTransaction l gw req user]
        invoices := l.invoices ++ [mkPaymentInvoice l req]
        nextId := l.nextId + 2 } req.courseId user.id).isSome = true := by
    unfold findCompletedTransaction at hdup ⊢
    simp only [List.find?_append, hdup, Option.none_or, List.find?_cons, hqtxn]
    rfl
  have h2 := processPayment_duplicate _ gw2 tm2 pt2 req user acct hacct1 hdup1
  rw [h2]
  refine ⟨⟨true, pt, tm⟩, rfl, _, rfl, rfl, rfl, ?_⟩
  rw [countCompletedPayments_recordFailed]
  have hz := countCompletedPayments_eq_zero l hdup
  unfold countCompletedPayments at hz ⊢
  simp only [List.countP_append, hz]
  have hp : (fun t => t.courseId == req.courseId && t.userId == user.id &&
      t.status == TxStatus.COMPLETED && t.type == TxType.PAYMENT)
      (mkPaymentTransaction l gw req user) = true := by
    simp [mkPaymentTransaction, hsucc]
  simp [List.countP_cons, hp]

/-- A store with one registered educator payout account and no
transactions. -/
def emptyLedger : Ledger :=
  { transactions := []
    invoices := []
    stripeAccounts := [⟨"edu_1", "acct_1"⟩]
    nextId := 0 }

/-- Scenario A request: `99.00 USD` for `course_1` and educator `edu_1`. -/
def scenarioRequest : PaymentRequest :=
  { courseId := "course_1"
    amount := 99
    source := "tok_visa"
    educatorId := "edu_1" }

/-- Scenario user. -/
def scenarioUser : User := { id := "user_1" }

/-- A gateway outcome where the charge is created and confirmed. -/
def scenarioGateway : StripeChargeOutcome :=
  { ok := true, id := "pi_1", status := "succeeded" }

/-- C6 witness: the two-call scenario on the concrete empty store. -/
theorem processPayment_idempotent_conflict_witness :
    ∃ res, (processPayment emptyLedger scenarioGateway ⟨0,0,0,0⟩ 0
        scenarioRequest scenarioUser).result = Except.ok res ∧
    ∃ e, (processPayment (processPayment emptyLedger scenarioGateway ⟨0,0,0,0⟩ 0
            scenarioRequest scenarioUser).ledger
          scenarioGateway ⟨0,0,0,0⟩ 0 scenarioRequest scenarioUser).result = Except.error e ∧
      e.name = "already_enrolled_err" ∧
      errorHandlerStatus e = 409 ∧
      countCompletedPayments
        (processPayment (processPayment emptyLedger scenarioGateway ⟨0,0,0,0⟩ 0
            scenarioRequest scenarioUser).ledger
          scenarioGateway ⟨0,0,0,0⟩ 0 scenarioRequest scenarioUser).ledger
        scenarioRequest.courseId scenarioUser.id = 1 :=
  processPayment_idempotent_conflict emptyLedger scenarioGateway scenarioGateway
    ⟨0,0,0,0⟩ ⟨0,0,0,0⟩ 0 0 scenarioRequest scenarioUser ⟨"edu_1", "acct_1"⟩
    rfl rfl rfl rfl

/-! ### C7: payment for an educator without a payout account -/

/-- C7 (amended).  When the educator has no payout account the payment
fails before any gateway call with the `edu_not_found_err` error carrying
status code `400` at the throw site — but the error-handling middleware
surfaces that name as HTTP `404` — and, contrary to the original claim
that no transaction record of any status is created, a `FAILED`
transaction row for the request is recorded (fire-and-forget) whenever
`courseId`, `amount` and the user id are truthy. -/
theorem processPayment_educator_not_found (l : Ledger) (gw : StripeChargeOutcome)
    (tm : Matrices) (pt : Nat) (req : PaymentRequest) (user : User)
    (hacct : findStripeAccount l req.educatorId = none) :
    (processPayment l gw tm pt req user).result
      = Except.error ⟨"edu_not_found_err", "Educator account not found", 400⟩ ∧
    errorHandlerStatus ⟨"edu_not_found_err", "Educator account not found", 400⟩ = 404 ∧
    (processPayment l gw tm pt req user).gatewayLog = [] ∧
    (req.courseId ≠ "" → req.amount ≠ 0 → user.id ≠ "" →
      ∃ t ∈ (processPayment l gw tm pt req user).ledger.transactions,
        t.status = TxStatus.FAILED ∧ t.type = TxType.PAYMENT ∧
        t.userId = user.id ∧ t.courseId = req.courseId) := by
  rw [processPayment_no_account l gw tm pt req user hacct]
  refine ⟨rfl, rfl, rfl, ?_⟩
  intro h1 h2 h3
  unfold recordFailedTransaction
  rw [if_pos ⟨h1, h2, h3⟩]
  exact ⟨_, List.mem_append_right _ (List.mem_singleton_self _), rfl, rfl, rfl, rfl⟩

/-- A store with no payout accounts at all. -/
def noAccountLedger : Ledger :=
  { transactions := [], invoices := [], stripeAccounts := [], nextId := 0 }

/-- C7 witness: the amended behaviour on the concrete store without
accounts. -/
theorem processPayment_educator_not_found_witness :
    (processPayment noAccountLedger scenarioGateway ⟨0,0,0,0⟩ 0
        scenarioRequest scenarioUser).result
      = Except.error ⟨"edu_not_found_err", "Educator account not found", 400⟩ ∧
    errorHandlerStatus ⟨"edu_not_found_err", "Educator account not found", 400⟩ = 404 ∧
    (processPayment noAccountLedger scenarioGateway ⟨0,0,0,0⟩ 0
        scenarioRequest scenarioUser).gatewayLog = [] ∧
    (scenarioRequest.courseId ≠ "" → scenarioRequest.amount ≠ 0 → scenarioUser.id ≠ "" →
      ∃ t ∈ (processPayment noAccountLedger scenarioGateway ⟨0,0,0,0⟩ 0
          scenarioRequest scenarioUser).ledger.transactions,
        t.status = TxStatus.FAILED ∧ t.type = TxType.PAYMENT ∧
        t.userId = scenarioUser.id ∧ t.courseId = scenarioRequest.courseId) :=
  processPayment_educator_not_found noAccountLedger scenarioGateway ⟨0,0,0,0⟩ 0
    scenarioRequest scenarioUser rfl

/-- C7 counterexample: on the concrete store without payout accounts the
request indeed performs no gateway call, but a `FAILED` transaction row
IS created for it, refuting the claim that no transaction record of any
status is created; moreover the surfaced HTTP status is `404`, not the
claimed `400`. -/
theorem failed_row_created_without_account :
    (processPayment noAccountLedger scenarioGateway ⟨0,0,0,0⟩ 0
        scenarioRequest scenarioUser).gatewayLog = [] ∧
    (∃ e, (processPayment noAccountLedger scenarioGateway ⟨0,0,0,0⟩ 0
        scenarioRequest scenarioUser).result = Except.error e ∧
      errorHandlerStatus e = 404) ∧
    ∃ t ∈ (processPayment noAccountLedger scenarioGateway ⟨0,0,0,0⟩ 0
        scenarioRequest scenarioUser).ledger.transactions,
      t.status = TxStatus.FAILED := by
  rw [processPayment_no_account noAccountLedger scenarioGateway ⟨0,0,0,0⟩ 0
    scenarioRequest scenarioUser rfl]
  refine ⟨rfl, ⟨_, rfl, rfl⟩, ?_⟩
  unfold recordFailedTransaction
  rw [if_pos ⟨by simp [scenarioRequest], by norm_num [scenarioRequest], by simp [scenarioUser]⟩]
  exact ⟨_, List.mem_append_right _ (List.mem_singleton_self _), rfl⟩

/-! ### C2: the 99.00 end-to-end scenario -/

/-- C2 counterexample: processing scenario A (`99.00` for an educator with
a registered payout account, gateway confirms) yields a `COMPLETED`
transaction with `platformCommission = 19` (inside the claimed 19–20) but
`educatorEarnings = 77`, which is NOT in the claimed 78–79 range: the
code deducts the estimated processor fee `0.30 + 2.9% · 99 = 3.171`
before the split. -/
theorem scenarioA_earnings_off_by_fee :
    ∃ t ∈ (processPayment emptyLedger scenarioGateway ⟨0,0,0,0⟩ 0
        scenarioRequest scenarioUser).ledger.transactions,
      t.status = TxStatus.COMPLETED ∧ t.platformCommission = 19 ∧
      t.educatorEarnings = 77 ∧
      ¬(78 ≤ t.educatorEarnings ∧ t.educatorEarnings ≤ 79) := by
  rw [processPayment_success emptyLedger scenarioGateway ⟨0,0,0,0⟩ 0
    scenarioRequest scenarioUser ⟨"edu_1", "acct_1"⟩ rfl rfl rfl]
  refine ⟨mkPaymentTransaction emptyLedger scenarioGateway scenarioRequest scenarioUser,
    List.mem_append_right _ (List.mem_singleton_self _), rfl, ?_, ?_, ?_⟩
  · norm_num [mkPaymentTransaction, scenarioRequest, calculatePlatformCommission,
      platformCommissionOf, educatorEarningsOf, jsMin, jsMax, jsRound, netAmount,
      stripeFee, commissionPercentage, PLATFORM_COMMISSION_PERCENTAGE]
  · norm_num [mkPaymentTransaction, scenarioRequest, calculatePlatformCommission,
      platformCommissionOf, educatorEarningsOf, jsMin, jsMax, jsRound, netAmount,
      stripeFee, commissionPercentage, PLATFORM_COMMISSION_PERCENTAGE]
  · norm_num [mkPaymentTransaction, scenarioRequest, calculatePlatformCommission,
      platformCommissionOf, educatorEarningsOf, jsMin, jsMax, jsRound, netAmount,
      stripeFee, commissionPercentage, PLATFORM_COMMISSION_PERCENTAGE]

/-- C2 (amended).  Scenario A produces a `COMPLETED` transaction with
`platformCommission = 19` and `educatorEarnings = 77` (not 78–79: the
estimated processor fee is deducted before the split), and an invoice for
that transaction with `total = 99` and status `PAID`. -/
theorem scenarioA_values :
    ∃ t ∈ (processPayment emptyLedger scenarioGateway ⟨0,0,0,0⟩ 0
        scenarioRequest scenarioUser).ledger.transactions,
      t.status = TxStatus.COMPLETED ∧ t.platformCommission = 19 ∧
      t.educatorEarnings = 77 ∧
      ∃ i ∈ (processPayment emptyLedger scenarioGateway ⟨0,0,0,0⟩ 0
          scenarioRequest scenarioUser).ledger.invoices,
        i.transactionId = t.id ∧ i.total = 99 ∧ i.status = InvoiceStatus.PAID := by
  rw [processPayment_success emptyLedger scenarioGateway ⟨0,0,0,0⟩ 0
    scenarioRequest scenarioUser ⟨"edu_1", "acct_1"⟩ rfl rfl rfl]
  refine ⟨mkPaymentTransaction emptyLedger scenarioGateway scenarioRequest scenarioUser,
    List.mem_append_right _ (List.mem_singleton_self _), rfl, ?_, ?_,
    mkPaymentInvoice emptyLedger scenarioRequest,
    List.mem_append_right _ (List.mem_singleton_self _), rfl, ?_, rfl⟩
  · norm_num [mkPaymentTransaction, scenarioRequest, calculatePlatformCommission,
      platformCommissionOf, educatorEarningsOf, jsMin, jsMax, jsRound, netAmount,
      stripeFee, commissionPercentage, PLATFORM_COMMISSION_PERCENTAGE]
  · norm_num [mkPaymentTransaction, scenarioRequest, calculatePlatformCommission,
      platformCommissionOf, educatorEarningsOf, jsMin, jsMax, jsRound, netAmount,
      stripeFee, commissionPercentage, PLATFORM_COMMISSION_PERCENTAGE]
  · norm_num [mkPaymentInvoice, scenarioRequest]

/-! ### C8: the shape of the value returned by processPayment -/

/-- C8 (amended).  A successful `processPayment` returns exactly
`{success := true, processingTime, matrices}` — the stage timings — and in
particular neither the created transaction id nor the created invoice id
appear in the result. -/
theorem processPayment_result_shape (l : Ledger) (gw : StripeChargeOutcome)
    (tm : Matrices) (pt : Nat) (req : PaymentRequest) (user : User)
    (acct : StripeAccount)
    (hacct : findStripeAccount l req.educatorId = some acct)
    (hdup : findCompletedTransaction l req.courseId user.id = none)
    (hok : gw.ok = true) :
    (processPayment l gw tm pt req user).result = Except.ok ⟨true, pt, tm⟩ := by
  rw [processPayment_success l gw tm pt req user acct hacct hdup hok]

/-- C8 witness: the result shape on the concrete scenario. -/
theorem processPayment_result_shape_witness :
    (processPayment emptyLedger scenarioGateway ⟨0,0,0,0⟩ 0
        scenarioRequest scenarioUser).result = Except.ok ⟨true, 0, ⟨0,0,0,0⟩⟩ :=
  processPayment_result_shape emptyLedger scenarioGateway ⟨0,0,0,0⟩ 0
    scenarioRequest scenarioUser ⟨"edu_1", "acct_1"⟩ rfl rfl rfl

/-- Store `emptyLedger` with the id allocator moved forward, so that the same
request creates rows with different ids. -/
def emptyLedgerShifted : Ledger := { emptyLedger with nextId := 100 }

/-- C8 counterexample: two successful runs of the same request against
stores differing only in the id allocator return EQUAL results while the
created transaction ids (`0` versus `100`) and invoice ids (`1` versus
`101`) differ — so the returned value cannot contain (or determine) the
created transaction id or invoice id, refuting the claimed
`{transactionId, invoiceId, processingTimeMs}` result contract. -/
theorem payment_result_contains_no_ids :
    (processPayment emptyLedger scenarioGateway ⟨0,0,0,0⟩ 0
        scenarioRequest scenarioUser).result
      = (processPayment emptyLedgerShifted scenarioGateway ⟨0,0,0,0⟩ 0
        scenarioRequest scenarioUser).result ∧
    (∃ t1 ∈ (processPayment emptyLedger scenarioGateway ⟨0,0,0,0⟩ 0
        scenarioRequest scenarioUser).ledger.transactions,
      t1.status = TxStatus.COMPLETED ∧ t1.id = 0) ∧
    (∃ t2 ∈ (processPayment emptyLedgerShifted scenarioGateway ⟨0,0,0,0⟩ 0
        scenarioRequest scenarioUser).ledger.transactions,
      t2.status = TxStatus.COMPLETED ∧ t2.id = 100) ∧
    (∃ i1 ∈ (processPayment emptyLedger scenarioGateway ⟨0,0,0,0⟩ 0
        scenarioRequest scenarioUser).ledger.invoices, i1.id = 1) ∧
    (∃ i2 ∈ (processPayment emptyLedgerShifted scenarioGateway ⟨0,0,0,0⟩ 0
        scenarioRequest scenarioUser).ledger.invoices, i2.id = 101) := by
  rw [processPayment_success emptyLedger scenarioGateway ⟨0,0,0,0⟩ 0
    scenarioRequest scenarioUser ⟨"edu_1", "acct_1"⟩ rfl rfl rfl,
    processPayment_success emptyLedgerShifted scenarioGateway ⟨0,0,0,0⟩ 0
    scenarioRequest scenarioUser ⟨"edu_1", "acct_1"⟩ rfl rfl rfl]
  exact ⟨rfl,
    ⟨_, List.mem_append_right _ (List.mem_singleton_self _), rfl, rfl⟩,
    ⟨_, List.mem_append_right _ (List.mem_singleton_self _), rfl, rfl⟩,
    ⟨_, List.mem_append_right _ (List.mem_singleton_self _), rfl⟩,
    ⟨_, List.mem_append_right _ (List.mem_singleton_self _), rfl⟩⟩

/-! ### C9: report caching and cache invalidation -/

/-- The `summary` block computed by `generateFinancialReport` (reporting
service, summary SQL): revenue/refund totals over `COMPLETED` rows of each
type, their difference, commission and earnings totals, and the
per-type row counts.  The daily/per-course/payment-method breakdowns and
the distinct-customer count of the full report are not modelled. -/
structure ReportSummary where
  totalRevenue : ℚ
  totalRefunds : ℚ
  netRevenue : ℚ
  totalCommission : ℚ
  totalEducatorEarnings : ℚ
  totalTransactions : Nat
  totalRefundCount : Nat
deriving DecidableEq, Repr

/-- Predicate `type = PAYMENT AND status = COMPLETED`. -/
def isCompletedPayment (t : Transaction) : Bool :=
  t.type == TxType.PAYMENT && t.status == TxStatus.COMPLETED

/-- Predicate `type = REFUND AND status = COMPLETED`. -/
def isCompletedRefund (t : Transaction) : Bool :=
  t.type == TxType.REFUND && t.status == TxStatus.COMPLETED

/-- The storage aggregation behind the financial report: the grouped-sum
SQL evaluated over the transaction table. -/
def reportSummaryOf (l : Ledger) : ReportSummary :=
  { totalRevenue := ((l.transactions.filter isCompletedPayment).map (·.amount)).sum
    totalRefunds := ((l.transactions.filter isCompletedRefund).map (·.amount)).sum
    netRevenue := ((l.transactions.filter isCompletedPayment).map (·.amount)).sum
      - ((l.transactions.filter isCompletedRefund).map (·.amount)).sum
    totalCommission :=
      ((l.transactions.filter isCompletedPayment).map (·.platformCommission)).sum
    totalEducatorEarnings :=
      ((l.transactions.filter isCompletedPayment).map (·.educatorEarnings)).sum
    totalTransactions := (l.transactions.filter fun t => t.type == TxType.PAYMENT).length
    totalRefundCount := (l.transactions.filter fun t => t.type == TxType.REFUND).length }

/-- One entry of the key-value cache: key, cached report, absolute expiry
instant (`set` with a TTL records `now + ttl`). -/
structure CacheEntry where
  key : String
  value : ReportSummary
  expiresAt : Nat
deriving DecidableEq, Repr

/-- Operation `cacheUtils.get`: the stored value under the key, provided it has not
expired. -/
def cacheGet (c : List CacheEntry) (now : Nat) (k : String) : Option ReportSummary :=
  match c.find? (fun e => e.key == k) with
  | some e => if now < e.expiresAt then some e.value else none
  | none => none

/-- Operation `cacheUtils.set` with TTL `ttl`. -/
def cacheSet (c : List CacheEntry) (now ttl : Nat) (k : String) (v : ReportSummary) :
    List CacheEntry :=
  ⟨k, v, now + ttl⟩ :: c.filter fun e => !(e.key == k)

/-- Constant `CACHE_TTLS.FINANCIAL_REPORT = 1800` seconds (reporting service). -/
def CACHE_TTLS_FINANCIAL_REPORT : Nat := 1800

/-- Function `generateReportCacheKey` (reporting service): `report:<prefix>:<canonical
filter serialization or "default">`; the sorted key-value serialization of
the filter object is abstracted to its resulting string. -/
def generateReportCacheKey (pre filterString : String) : String :=
  "report:" ++ pre ++ ":" ++ (if filterString = "" then "default" else filterString)

/-- The outcome of one `generateFinancialReport` call: the returned
report, the cache afterwards, and how many storage aggregations were
performed (`0` on a cache hit, `1` on a miss). -/
structure ReportRun where
  report : ReportSummary
  cache : List CacheEntry
  dbAggregations : Nat
deriving Repr

/-- Function `generateFinancialReport` (reporting service lines 34-198): return the
cached report when present, otherwise aggregate from storage and populate
the cache under the financial-report TTL. -/
def generateFinancialReport (c : List CacheEntry) (l : Ledger) (now : Nat)
    (filterString : String) : ReportRun :=
  let key := generateReportCacheKey "financial" filterString
  match cacheGet c now key with
  | some v => ⟨v, c, 0⟩
  | none =>
      ⟨reportSummaryOf l,
       cacheSet c now CACHE_TTLS_FINANCIAL_REPORT key (reportSummaryOf l), 1⟩

/-- A key matches the Redis glob `pre*` exactly when `pre` is a prefix of
the key (match on the character lists). -/
def keyMatchesPattern (pre k : String) : Bool :=
  pre.data.isPrefixOf k.data

/-- Function `invalidateTransactionCaches` (statistics service lines 632-640),
invoked after payment and refund commits: it deletes the keys matching
`stats:*` — and only those; `report:*` keys survive
(`invalidateReportCaches`, which would delete them, is never called by
the payment or refund flow). -/
def invalidateTransactionCaches (c : List CacheEntry) : List CacheEntry :=
  c.filter fun e => !(keyMatchesPattern "stats:" e.key)

/-- C9 (amended).  Two `generateFinancialReport` calls with identical
filters inside the TTL window return the same report and the second call
performs no storage aggregation; and the invalidation run after a payment
or refund commit removes exactly the `stats:*` keys, keeping every other
key (in particular the `report:*` keys, which can therefore serve stale
reports — see the counterexample). -/
theorem report_cache_behavior :
    (∀ (c : List CacheEntry) (l : Ledger) (now1 now2 : Nat) (fs : String),
      cacheGet c now1 (generateReportCacheKey "financial" fs) = none →
      now1 ≤ now2 → now2 < now1 + CACHE_TTLS_FINANCIAL_REPORT →
      (generateFinancialReport c l now1 fs).dbAggregations = 1 ∧
      (generateFinancialReport (generateFinancialReport c l now1 fs).cache
          l now2 fs).report = (generateFinancialReport c l now1 fs).report ∧
      (generateFinancialReport (generateFinancialReport c l now1 fs).cache
          l now2 fs).dbAggregations = 0) ∧
    (∀ (c : List CacheEntry) (e : CacheEntry),
      e ∈ invalidateTransactionCaches c ↔
        e ∈ c ∧ keyMatchesPattern "stats:" e.key = false) := by
  constructor
  · intro c l now1 now2 fs hmiss h12 h2
    unfold generateFinancialReport
    have hhit : cacheGet (cacheSet c now1 CACHE_TTLS_FINANCIAL_REPORT
        (generateReportCacheKey "financial" fs) (reportSummaryOf l)) now2
        (generateReportCacheKey "financial" fs) = some (reportSummaryOf l) := by
      unfold cacheGet cacheSet
      simp only [List.find?_cons, beq_self_eq_true]
      rw [if_pos h2]
    simp only [hmiss, hhit]
    exact ⟨trivial, trivial, trivial⟩
  · intro c e
    unfold invalidateTransactionCaches
    rw [List.mem_filter]
    simp [Bool.not_eq_true']

/-- C9 witness: the cached-second-call half at concrete inputs (empty
cache, `emptyLedger`, first call at `0`, second at `10`). -/
theorem report_cache_behavior_witness :
    (generateFinancialReport [] emptyLedger 0 "").dbAggregations = 1 ∧
    (generateFinancialReport (generateFinancialReport [] emptyLedger 0 "").cache
        emptyLedger 10 "").report = (generateFinancialReport [] emptyLedger 0 "").report ∧
    (generateFinancialReport (generateFinancialReport [] emptyLedger 0 "").cache
        emptyLedger 10 "").dbAggregations = 0 :=
  report_cache_behavior.1 [] emptyLedger 0 10 "" rfl (by omega)
    (by norm_num [CACHE_TTLS_FINANCIAL_REPORT])

/-- C9 counterexample: generate a report, commit a payment (which runs
`invalidateTransactionCaches`), and call the report again within the TTL:
the second call performs no storage aggregation and returns the OLD
report, even though the storage aggregate has changed — refuting the
claim that after any payment commit a subsequent call to any cached
report operation recomputes from storage. -/
theorem stale_report_after_payment :
    (generateFinancialReport
        (invalidateTransactionCaches (generateFinancialReport [] emptyLedger 0 "").cache)
        (processPayment emptyLedger scenarioGateway ⟨0,0,0,0⟩ 0
          scenarioRequest scenarioUser).ledger 10 "").dbAggregations = 0 ∧
    (generateFinancialReport
        (invalidateTransactionCaches (generateFinancialReport [] emptyLedger 0 "").cache)
        (processPayment emptyLedger scenarioGateway ⟨0,0,0,0⟩ 0
          scenarioRequest scenarioUser).ledger 10 "").report
      = (generateFinancialReport [] emptyLedger 0 "").report ∧
    reportSummaryOf (processPayment emptyLedger scenarioGateway ⟨0,0,0,0⟩ 0
        scenarioRequest scenarioUser).ledger
      ≠ (generateFinancialReport [] emptyLedger 0 "").report := by
  refine ⟨rfl, rfl, ?_⟩
  intro h
  have h2 := congrArg ReportSummary.totalRevenue h
  rw [processPayment_success emptyLedger scenarioGateway ⟨0,0,0,0⟩ 0
    scenarioRequest scenarioUser ⟨"edu_1", "acct_1"⟩ rfl rfl rfl] at h2
  norm_num [reportSummaryOf, generateFinancialReport, generateReportCacheKey,
    cacheGet, cacheSet, emptyLedger, mkPaymentTransaction, scenarioRequest,
    scenarioGateway, scenarioUser, isCompletedPayment] at h2

end ELearnPay
